import Mathlib

/-!
Shallow embedding of the server-watchdog client library (src/lib/client.js).

JavaScript numbers are modelled as rationals (the validation code only ever
compares them and tests integrality via `x % 1 != 0`, which for a rational `q`
is `q.den ≠ 1`); JavaScript dynamic values as an inductive `JSValue`.
Asynchronous operations are split in two stages: a pure stage that validates
arguments and either throws, silently returns, or produces the HTTP request to
send, and a transport stage (`runOp`) that feeds the request to an arbitrary
network function and handles the response exactly as `sendRequest` does.
Quantifying theorems over the network function captures the "before any
network I/O" clauses: a result that holds for every possible transport cannot
depend on any network activity.
-/

/-- A JavaScript value, as far as the client library inspects its arguments:
`undefined`, `null`, booleans, numbers (as rationals) and strings. Other
object values behave, for every check in this library, like `bool true`
(truthy and not a string, not a number). -/
inductive JSValue where
  | undefined
  | null
  | bool (b : Bool)
  | num (q : ℚ)
  | str (s : String)
  deriving DecidableEq, Repr

/-- JavaScript truthiness of a `JSValue` (`!!v`). -/
def JSValue.truthy : JSValue → Bool
  | .undefined => false
  | .null => false
  | .bool b => b
  | .num q => decide (q ≠ 0)
  | .str s => decide (s.length ≠ 0)

/-- The `options` argument fields read by `create`. A field the caller did not
supply is `JSValue.undefined`. -/
structure ClientOptions where
  host : JSValue
  port : JSValue
  useSsl : JSValue
  apiKey : JSValue
  defaultChannel : JSValue
  timeout : JSValue
  deriving DecidableEq, Repr

/-- The `options` argument itself: not an object at all (`typeof options !==
'object'`), an array, or an object with the six fields above. A `null`
argument behaves like an object with every field `undefined` (spreading
`null` yields `\x7b\x7d`). -/
inductive OptionsArg where
  | nonObject
  | arrayObject
  | obj (o : ClientOptions)
  deriving DecidableEq, Repr

/-- The validated, immutable configuration captured by the `Client` closure
(`url_base` is derived below; `api_key`, `default_channel`, `timeout` are the
private variables). `port` is kept as the rational the caller passed; `create`
only accepts integral values in `[1, 65535]`. -/
structure Config where
  host : String
  port : ℚ
  useSsl : Bool
  apiKey : String
  defaultChannel : String
  timeout : ℚ
  deriving DecidableEq, Repr

/-- Host check of `create`: `typeof options.host !== 'string' ||
options.host.length == 0` throws `Error('Invalid host')`. -/
def checkHost : JSValue → Except String String
  | .str s => if s.length = 0 then .error "Invalid host" else .ok s
  | _ => .error "Invalid host"

/-- Port check of `create`: must be a number, and
`port < 1 || port > 65535 || (port % 1) != 0` throws `Error('Invalid port')`. -/
def checkPort : JSValue → Except String ℚ
  | .num p => if p < 1 ∨ p > 65535 ∨ p.den ≠ 1 then .error "Invalid port" else .ok p
  | _ => .error "Invalid port"

/-- Use-ssl check of `create`: a number is coerced by truthiness (`!!+x`),
`undefined` defaults to `false`, a boolean is kept, anything else throws
`Error('Invalid use ssl')`. -/
def checkUseSsl : JSValue → Except String Bool
  | .num q => .ok (decide (q ≠ 0))
  | .undefined => .ok false
  | .bool b => .ok b
  | _ => .error "Invalid use ssl"

/-- Api-key check of `create`: non-empty string or `Error('Invalid API key')`. -/
def checkApiKey : JSValue → Except String String
  | .str s => if s.length = 0 then .error "Invalid API key" else .ok s
  | _ => .error "Invalid API key"

/-- Default-channel check of `create`: non-empty string or
`Error('Invalid default channel')`. -/
def checkDefaultChannel : JSValue → Except String String
  | .str s => if s.length = 0 then .error "Invalid default channel" else .ok s
  | _ => .error "Invalid default channel"

/-- Timeout check of `create`: a number with `timeout < 1 || (timeout % 1) != 0`
throws `Error('Invalid timeout')`, `undefined` defaults to `30000`, anything
else throws. -/
def checkTimeout : JSValue → Except String ℚ
  | .num t => if t < 1 ∨ t.den ≠ 1 then .error "Invalid timeout" else .ok t
  | .undefined => .ok 30000
  | _ => .error "Invalid timeout"

/-- The `create(options)` factory: the checks run in source order and the
first failure wins. Construction-time `Error`s are the spec's
`ConfigurationError`; the error value is the thrown message. -/
def create : OptionsArg → Except String Config
  | .nonObject => .error "Invalid options"
  | .arrayObject => .error "Invalid options"
  | .obj o => do
    let host ← checkHost o.host
    let port ← checkPort o.port
    let ssl ← checkUseSsl o.useSsl
    let key ← checkApiKey o.apiKey
    let dc ← checkDefaultChannel o.defaultChannel
    let t ← checkTimeout o.timeout
    .ok ⟨host, port, ssl, key, dc, t⟩

/-- Errors thrown by the per-call code paths: `plainError` is a
`new Error(message)` (the spec's `InvalidArgument` for argument validation),
`clientRequestError` is the `ClientRequestError` subclass carrying the status
code, and `jsonRejected` stands for the rejection propagated from
`response.json()` on a malformed body. -/
inductive ThrownError where
  | plainError (message : String)
  | clientRequestError (message : String) (statusCode : ℕ)
  | jsonRejected
  deriving DecidableEq, Repr

/-- A JSON request body, one constructor per call site of `sendRequest`:
`notify` sends `\x7bmessage, channel, severity\x7d`, `process/watch` sends
`\x7bpid, name, channel, severity\x7d` (the `name` is forwarded unvalidated,
hence a `JSValue`), `process/unwatch` sends `\x7bpid, channel\x7d`. -/
inductive RequestBody where
  | notifyBody (message channel severity : String)
  | watchBody (pid : ℚ) (name : JSValue) (channel severity : String)
  | unwatchBody (pid : ℚ) (channel : String)
  deriving DecidableEq, Repr

/-- The HTTP request an operation decided to send: the relative path passed to
`sendRequest`, the body, and the `no_response` flag of its options. -/
structure Request where
  path : String
  body : RequestBody
  no_response : Bool
  deriving DecidableEq, Repr

/-- The fetch options built by `sendRequest`: method POST, the three headers,
the configured timeout, and the JSON body. -/
structure FetchOptions where
  method : String
  accept : String
  contentType : String
  apiKey : String
  timeout : ℚ
  body : RequestBody
  deriving DecidableEq, Repr

/-- An HTTP response as the client observes it: the status code, the result of
`response.text()` (`none` when that promise rejects), and the result of
`response.json()` (`none` when the body is not valid JSON). -/
structure Response where
  status : ℕ
  textResult : Option String
  jsonResult : Option JSValue
  deriving DecidableEq, Repr

/-- The ambient Node process state read by the watch operations:
`process.pid` and `process.execPath`. -/
structure ProcessEnv where
  pid : ℚ
  execPath : String
  deriving DecidableEq, Repr

namespace Client

/-- The private `url_base` variable of the `Client` closure:
`'http' + (useSsl ? 's' : '') + '://' + host + ':' + port.toString() + '/'`.
For the integral ports `create` accepts, `port.toString()` prints the decimal
numerator. -/
def url_base (c : Config) : String :=
  "http" ++ (if c.useSsl then "s" else "") ++ "://" ++ c.host ++ ":"
    ++ toString c.port.num ++ "/"

/-- `getDefaultChannel()`: returns the captured `default_channel`. -/
def getDefaultChannel (c : Config) : String :=
  c.defaultChannel

/-- The private `validateChannel` helper: a truthy non-string throws
`Error('Invalid channel')`; otherwise a truthy channel is returned as-is and
a falsy one is replaced by `default_channel`. -/
def validateChannel (default_channel : String) (channel : JSValue) :
    Except ThrownError String :=
  match channel with
  | .str s => if s.length = 0 then .ok default_channel else .ok s
  | v => if v.truthy then .error (.plainError "Invalid channel") else .ok default_channel

/-- The private `validateSeverity` helper: a falsy severity yields `'error'`;
otherwise the value must be one of the strings `'error'`, `'warn'`, `'info'`,
else `Error('Invalid severity')` is thrown. -/
def validateSeverity (severity : JSValue) : Except ThrownError String :=
  if severity.truthy = false then .ok "error"
  else match severity with
    | .str s =>
      if s = "error" ∨ s = "warn" ∨ s = "info" then .ok s
      else .error (.plainError "Invalid severity")
    | _ => .error (.plainError "Invalid severity")

/-- The private `notify` helper, up to its `sendRequest` call: a non-string
message throws `Error('Invalid message')`; an empty message returns without
sending anything (`Option.none`); otherwise the channel is validated and the
`notify` request with `no_response: true` is produced. -/
def notify (c : Config) (message channel : JSValue) (severity : String) :
    Except ThrownError (Option Request) :=
  match message with
  | .str m =>
    if m.length = 0 then .ok none
    else
      match validateChannel c.defaultChannel channel with
      | .error e => .error e
      | .ok ch => .ok (some ⟨"notify", .notifyBody m ch severity, true⟩)
  | _ => .error (.plainError "Invalid message")

/-- The public `error(message, channel)` method: `notify` with severity
`'error'`. -/
def error (c : Config) (message channel : JSValue) :
    Except ThrownError (Option Request) :=
  notify c message channel "error"

/-- The public `warn(message, channel)` method: `notify` with severity
`'warn'`. -/
def warn (c : Config) (message channel : JSValue) :
    Except ThrownError (Option Request) :=
  notify c message channel "warn"

/-- The public `info(message, channel)` method: `notify` with severity
`'info'`. -/
def info (c : Config) (message channel : JSValue) :
    Except ThrownError (Option Request) :=
  notify c message channel "info"

/-- The pid-defaulting step shared by `processWatch` and `processUnwatch`:
`if (!pid) pid = process.pid`. -/
def substPid (env : ProcessEnv) (pid : JSValue) : JSValue :=
  if pid.truthy then pid else .num env.pid

/-- The public `processWatch(pid, name, severity, channel)` method, up to its
`sendRequest` call: defaults a falsy pid to `process.pid`, requires the result
to be a number that is an integer `≥ 1` (`Error('Invalid process id')`
otherwise), defaults a falsy name to `process.execPath`, validates severity
then channel, and produces the `process/watch` request with
`no_response: true`. -/
def processWatch (env : ProcessEnv) (c : Config)
    (pid name severity channel : JSValue) : Except ThrownError (Option Request) :=
  match substPid env pid with
  | .num p =>
    if p < 1 ∨ p.den ≠ 1 then .error (.plainError "Invalid process id")
    else
      match validateSeverity severity with
      | .error e => .error e
      | .ok sev =>
        match validateChannel c.defaultChannel channel with
        | .error e => .error e
        | .ok ch =>
          .ok (some ⟨"process/watch",
            .watchBody p (if name.truthy then name else .str env.execPath) ch sev,
            true⟩)
  | _ => .error (.plainError "Invalid process id")

/-- The public `processUnwatch(pid, channel)` method, up to its `sendRequest`
call: same pid defaulting and validation as `processWatch`, channel
validation, then the `process/unwatch` request with `no_response: true`. -/
def processUnwatch (env : ProcessEnv) (c : Config) (pid channel : JSValue) :
    Except ThrownError (Option Request) :=
  match substPid env pid with
  | .num p =>
    if p < 1 ∨ p.den ≠ 1 then .error (.plainError "Invalid process id")
    else
      match validateChannel c.defaultChannel channel with
      | .error e => .error e
      | .ok ch => .ok (some ⟨"process/unwatch", .unwatchBody p ch, true⟩)
  | _ => .error (.plainError "Invalid process id")

/-- The fetch options object built at the top of `sendRequest`. -/
def mkFetchOptions (c : Config) (body : RequestBody) : FetchOptions :=
  ⟨"POST", "application/json", "application/json", c.apiKey, c.timeout, body⟩

/-- The diagnostic text composed on a non-200 response: the result of
`response.text()` when it succeeded with a non-empty string, and the generic
message otherwise. -/
def failText (resp : Response) : String :=
  match resp.textResult with
  | some t => if t.length = 0 then "Unsuccessful response from node." else t
  | none => "Unsuccessful response from node."

/-- Response handling of `sendRequest`: a non-200 status throws
`ClientRequestError` with the composed message and the status code; on 200,
`no_response: true` returns nothing, otherwise the JSON body is parsed and
returned (its rejection propagating). -/
def handleResponse (resp : Response) (no_response : Bool) :
    Except ThrownError (Option JSValue) :=
  if resp.status ≠ 200 then
    .error (.clientRequestError
      (failText resp ++ " [Status: " ++ toString resp.status ++ "]") resp.status)
  else if no_response then .ok none
  else
    match resp.jsonResult with
    | some j => .ok (some j)
    | none => .error .jsonRejected

/-- `sendRequest(url, body, options)` against a transport `net` modelling
`fetch`: builds the fetch options, performs the POST at `url_base + url`, and
handles the response. -/
def sendRequest (net : String → FetchOptions → Response) (c : Config)
    (url : String) (body : RequestBody) (no_response : Bool) :
    Except ThrownError (Option JSValue) :=
  handleResponse (net (url_base c ++ url) (mkFetchOptions c body)) no_response

/-- A complete public operation call: the pure validation stage either throws
(no network activity), silently resolves (no network activity), or yields the
request, which is then sent through `sendRequest`. -/
def runOp (net : String → FetchOptions → Response) (c : Config)
    (op : Except ThrownError (Option Request)) : Except ThrownError (Option JSValue) :=
  match op with
  | .error e => .error e
  | .ok none => .ok none
  | .ok (some r) => sendRequest net c r.path r.body r.no_response

end Client

/-! ## Helper lemmas and concrete fixtures -/

/-- A valid configuration used to instantiate quantified theorems. -/
def cfg0 : Config := ⟨"example.com", 8080, false, "k", "chan", 30000⟩

/-- A process environment used to instantiate quantified theorems. -/
def env0 : ProcessEnv := ⟨123, "/usr/bin/node"⟩

/-- A transport that always answers 200 with an empty body. -/
def net200 : String → FetchOptions → Response := fun _ _ => ⟨200, some "", none⟩

theorem checkHost_ok {v : JSValue} {s : String} (h : checkHost v = .ok s) :
    v = .str s ∧ s.length ≠ 0 := by
  cases v <;> simp only [checkHost] at h
  all_goals first
  | cases h
  | (split at h
     case isTrue => cases h
     case isFalse hf => cases h; exact ⟨rfl, hf⟩)

theorem checkApiKey_ok {v : JSValue} {s : String} (h : checkApiKey v = .ok s) :
    v = .str s ∧ s.length ≠ 0 := by
  cases v <;> simp only [checkApiKey] at h
  all_goals first
  | cases h
  | (split at h
     case isTrue => cases h
     case isFalse hf => cases h; exact ⟨rfl, hf⟩)

theorem checkDefaultChannel_ok {v : JSValue} {s : String}
    (h : checkDefaultChannel v = .ok s) : v = .str s ∧ s.length ≠ 0 := by
  cases v <;> simp only [checkDefaultChannel] at h
  all_goals first
  | cases h
  | (split at h
     case isTrue => cases h
     case isFalse hf => cases h; exact ⟨rfl, hf⟩)

theorem checkPort_ok {v : JSValue} {p : ℚ} (h : checkPort v = .ok p) :
    v = .num p ∧ 1 ≤ p ∧ p ≤ 65535 ∧ p.den = 1 := by
  cases v <;> simp only [checkPort] at h
  case num q =>
    split at h
    case isTrue => cases h
    case isFalse hf =>
      cases h
      push_neg at hf
      exact ⟨rfl, hf.1, hf.2.1, hf.2.2⟩
  all_goals cases h

theorem create_obj_ok {o : ClientOptions} {c : Config}
    (h : create (.obj o) = .ok c) :
    checkHost o.host = .ok c.host ∧ checkPort o.port = .ok c.port ∧
    checkUseSsl o.useSsl = .ok c.useSsl ∧ checkApiKey o.apiKey = .ok c.apiKey ∧
    checkDefaultChannel o.defaultChannel = .ok c.defaultChannel ∧
    checkTimeout o.timeout = .ok c.timeout := by
  cases h1 : checkHost o.host with
  | error e => simp [create, h1, Bind.bind, Except.bind] at h
  | ok host =>
  cases h2 : checkPort o.port with
  | error e => simp [create, h1, h2, Bind.bind, Except.bind] at h
  | ok port =>
  cases h3 : checkUseSsl o.useSsl with
  | error e => simp [create, h1, h2, h3, Bind.bind, Except.bind] at h
  | ok ssl =>
  cases h4 : checkApiKey o.apiKey with
  | error e => simp [create, h1, h2, h3, h4, Bind.bind, Except.bind] at h
  | ok key =>
  cases h5 : checkDefaultChannel o.defaultChannel with
  | error e => simp [create, h1, h2, h3, h4, h5, Bind.bind, Except.bind] at h
  | ok dc =>
  cases h6 : checkTimeout o.timeout with
  | error e => simp [create, h1, h2, h3, h4, h5, h6, Bind.bind, Except.bind] at h
  | ok t =>
    have h7 : (⟨host, port, ssl, key, dc, t⟩ : Config) = c := by
      simpa [create, h1, h2, h3, h4, h5, h6, Bind.bind, Except.bind] using h
    subst h7
    exact ⟨rfl, rfl, rfl, rfl, rfl, rfl⟩

/-- Concrete valid options corresponding to `cfg0`. -/
def opts0 : ClientOptions :=
  ⟨.str "example.com", .num 8080, .undefined, .str "k", .str "chan", .undefined⟩

/-! ## Claim theorems -/

/-- C9: `getDefaultChannel()` always returns exactly the `defaultChannel`
string supplied at construction; it is a pure projection of the immutable
configuration, so it performs no network I/O, never fails, and returns the
same value on every call over the client's lifetime. -/
theorem spec_C9_getDefaultChannel (o : ClientOptions) (c : Config)
    (h : create (.obj o) = .ok c) :
    o.defaultChannel = .str (Client.getDefaultChannel c) :=
  (checkDefaultChannel_ok (create_obj_ok h).2.2.2.2.1).1

theorem spec_C9_witness :
    opts0.defaultChannel = .str (Client.getDefaultChannel cfg0) :=
  spec_C9_getDefaultChannel opts0 cfg0 (by rfl)

/-- C4: for every configuration accepted by `create`, the derived base URL is
exactly `"http" + ("s" if useSsl) + "://" + host + ":" + port + "/"`, where
`host` and `port` are the values supplied at construction (the accepted port
is integral and in `[1, 65535]`, so `toString port.num` is its decimal
rendering). -/
theorem spec_C4_baseUrl (o : ClientOptions) (c : Config)
    (h : create (.obj o) = .ok c) :
    Client.url_base c
      = "http" ++ (if c.useSsl then "s" else "") ++ "://" ++ c.host ++ ":"
        ++ toString c.port.num ++ "/"
    ∧ o.host = .str c.host ∧ o.port = .num c.port
    ∧ c.port.den = 1 ∧ 1 ≤ c.port ∧ c.port ≤ 65535 := by
  obtain ⟨h1, h2, -, -, -, -⟩ := create_obj_ok h
  obtain ⟨hh, -⟩ := checkHost_ok h1
  obtain ⟨hp, hp1, hp2, hpd⟩ := checkPort_ok h2
  exact ⟨rfl, hh, hp, hpd, hp1, hp2⟩

theorem spec_C4_witness :
    Client.url_base cfg0 = "http://example.com:8080/"
    ∧ opts0.port = .num cfg0.port :=
  ⟨by rfl, (spec_C4_baseUrl opts0 cfg0 (by rfl)).2.2.1⟩

/-- C3: `create` applies its checks in source order (options object, host,
port, useSsl, apiKey, defaultChannel, timeout) and the first failing check
wins, raising the corresponding configuration error; `useSsl` coerces numbers
by truthiness and defaults to `false`, `timeout` defaults to `30000`; and
construction fails for missing or empty host, port `0`, port `65536`,
non-integer port, empty apiKey, empty defaultChannel, non-positive timeout and
non-integer timeout. -/
theorem spec_C3_create_order (o : ClientOptions) :
    create .nonObject = .error "Invalid options"
  ∧ create .arrayObject = .error "Invalid options"
  ∧ (checkHost o.host = .error "Invalid host" →
      create (.obj o) = .error "Invalid host")
  ∧ (∀ h, checkHost o.host = .ok h →
      checkPort o.port = .error "Invalid port" →
      create (.obj o) = .error "Invalid port")
  ∧ (∀ h p, checkHost o.host = .ok h → checkPort o.port = .ok p →
      checkUseSsl o.useSsl = .error "Invalid use ssl" →
      create (.obj o) = .error "Invalid use ssl")
  ∧ (∀ h p s, checkHost o.host = .ok h → checkPort o.port = .ok p →
      checkUseSsl o.useSsl = .ok s →
      checkApiKey o.apiKey = .error "Invalid API key" →
      create (.obj o) = .error "Invalid API key")
  ∧ (∀ h p s k, checkHost o.host = .ok h → checkPort o.port = .ok p →
      checkUseSsl o.useSsl = .ok s → checkApiKey o.apiKey = .ok k →
      checkDefaultChannel o.defaultChannel = .error "Invalid default channel" →
      create (.obj o) = .error "Invalid default channel")
  ∧ (∀ h p s k d, checkHost o.host = .ok h → checkPort o.port = .ok p →
      checkUseSsl o.useSsl = .ok s → checkApiKey o.apiKey = .ok k →
      checkDefaultChannel o.defaultChannel = .ok d →
      checkTimeout o.timeout = .error "Invalid timeout" →
      create (.obj o) = .error "Invalid timeout")
  ∧ (∀ h p s k d t, checkHost o.host = .ok h → checkPort o.port = .ok p →
      checkUseSsl o.useSsl = .ok s → checkApiKey o.apiKey = .ok k →
      checkDefaultChannel o.defaultChannel = .ok d →
      checkTimeout o.timeout = .ok t →
      create (.obj o) = .ok ⟨h, p, s, k, d, t⟩)
  ∧ checkUseSsl .undefined = .ok false
  ∧ (∀ q : ℚ, checkUseSsl (.num q) = .ok (decide (q ≠ 0)))
  ∧ (∀ b : Bool, checkUseSsl (.bool b) = .ok b)
  ∧ checkTimeout .undefined = .ok 30000
  ∧ checkHost (.str "") = .error "Invalid host"
  ∧ checkHost .undefined = .error "Invalid host"
  ∧ checkPort (.num 0) = .error "Invalid port"
  ∧ checkPort (.num 65536) = .error "Invalid port"
  ∧ (∀ p : ℚ, p.den ≠ 1 → checkPort (.num p) = .error "Invalid port")
  ∧ (∀ p : ℚ, 1 ≤ p → p ≤ 65535 → p.den = 1 → checkPort (.num p) = .ok p)
  ∧ checkApiKey (.str "") = .error "Invalid API key"
  ∧ checkDefaultChannel (.str "") = .error "Invalid default channel"
  ∧ (∀ t : ℚ, t ≤ 0 → checkTimeout (.num t) = .error "Invalid timeout")
  ∧ (∀ t : ℚ, t.den ≠ 1 → checkTimeout (.num t) = .error "Invalid timeout")
  ∧ (∀ t : ℚ, 1 ≤ t → t.den = 1 → checkTimeout (.num t) = .ok t) := by
  refine ⟨rfl, rfl, ?_, ?_, ?_, ?_, ?_, ?_, ?_, rfl, fun q => rfl, fun b => rfl,
    rfl, rfl, rfl, by rfl, by rfl, ?_, ?_, rfl, rfl, ?_, ?_, ?_⟩
  · intro e1
    simp [create, e1, Bind.bind, Except.bind]
  · intro h e1 e2
    simp [create, e1, e2, Bind.bind, Except.bind]
  · intro h p e1 e2 e3
    simp [create, e1, e2, e3, Bind.bind, Except.bind]
  · intro h p s e1 e2 e3 e4
    simp [create, e1, e2, e3, e4, Bind.bind, Except.bind]
  · intro h p s k e1 e2 e3 e4 e5
    simp [create, e1, e2, e3, e4, e5, Bind.bind, Except.bind]
  · intro h p s k d e1 e2 e3 e4 e5 e6
    simp [create, e1, e2, e3, e4, e5, e6, Bind.bind, Except.bind]
  · intro h p s k d t e1 e2 e3 e4 e5 e6
    simp [create, e1, e2, e3, e4, e5, e6, Bind.bind, Except.bind]
  · intro p hd
    simp [checkPort, hd]
  · intro p h1 h2 hd
    have hn : ¬(p < 1 ∨ p > 65535 ∨ p.den ≠ 1) := by
      push_neg
      exact ⟨h1, h2, hd⟩
    simp [checkPort, hn]
  · intro t ht
    have h1 : t < 1 := lt_of_le_of_lt ht one_pos
    simp [checkTimeout, h1]
  · intro t hd
    simp [checkTimeout, hd]
  · intro t h1 hd
    have hn : ¬(t < 1 ∨ t.den ≠ 1) := by
      push_neg
      exact ⟨h1, hd⟩
    simp [checkTimeout, hn]

/-- Options whose host is valid but whose port (and api key) are not: the
port error wins. -/
def optsBadPort : ClientOptions :=
  ⟨.str "h", .num 0, .undefined, .str "", .str "chan", .undefined⟩

theorem spec_C3_witness :
    create (.obj optsBadPort) = .error "Invalid port" :=
  (spec_C3_create_order optsBadPort).2.2.2.1 "h" (by rfl) (by rfl)

/-- A transport that always answers 500 with body text `boom`. -/
def net500 : String → FetchOptions → Response := fun _ _ => ⟨500, some "boom", none⟩

/-- A transport that always answers 200 with the JSON body `"ok"`. -/
def net200json : String → FetchOptions → Response :=
  fun _ _ => ⟨200, some "", some (.str "ok")⟩

/-- C1: whenever the POST of an operation completes with a status other than
200, the operation fails with a `ClientRequestError` whose status-code field
is the numeric HTTP status and whose message is the response body text
followed by `" [Status: <code>]"`, the generic text `"Unsuccessful response
from node."` being substituted when reading the body fails or yields the
empty string. -/
theorem spec_C1_non200 (net : String → FetchOptions → Response) (c : Config)
    (r : Request) (resp : Response)
    (hresp : net (Client.url_base c ++ r.path) (Client.mkFetchOptions c r.body) = resp)
    (hstatus : resp.status ≠ 200) :
    Client.runOp net c (.ok (some r))
      = .error (.clientRequestError
          (Client.failText resp ++ " [Status: " ++ toString resp.status ++ "]")
          resp.status)
    ∧ (∀ t, resp.textResult = some t → t.length ≠ 0 → Client.failText resp = t)
    ∧ (resp.textResult = none ∨ resp.textResult = some "" →
        Client.failText resp = "Unsuccessful response from node.") := by
  refine ⟨?_, ?_, ?_⟩
  · simp [Client.runOp, Client.sendRequest, hresp, Client.handleResponse, hstatus]
  · intro t ht htl
    simp [Client.failText, ht, htl]
  · rintro (h | h) <;> simp [Client.failText, h]

theorem spec_C1_witness :
    Client.runOp net500 cfg0
        (.ok (some ⟨"notify", .notifyBody "msg" "chan" "error", true⟩))
      = .error (.clientRequestError "boom [Status: 500]" 500) :=
  (spec_C1_non200 net500 cfg0 ⟨"notify", .notifyBody "msg" "chan" "error", true⟩
    ⟨500, some "boom", none⟩ rfl (by decide)).1

/-- C2: for each of `error`, `warn` and `info`, a non-string message fails
with the `InvalidArgument` error `Invalid message` no matter what the
transport does (so before any network I/O), and the empty-string message
resolves with no value and no network call (the result is `ok none` for every
transport). -/
theorem spec_C2_message (c : Config) (m channel : JSValue)
    (net : String → FetchOptions → Response) :
    ((∀ s, m ≠ .str s) →
        Client.runOp net c (Client.error c m channel)
          = .error (.plainError "Invalid message")
      ∧ Client.runOp net c (Client.warn c m channel)
          = .error (.plainError "Invalid message")
      ∧ Client.runOp net c (Client.info c m channel)
          = .error (.plainError "Invalid message"))
  ∧ (Client.runOp net c (Client.error c (.str "") channel) = .ok none
      ∧ Client.runOp net c (Client.warn c (.str "") channel) = .ok none
      ∧ Client.runOp net c (Client.info c (.str "") channel) = .ok none) := by
  constructor
  · intro hm
    cases m with
    | str s => exact absurd rfl (hm s)
    | undefined => exact ⟨rfl, rfl, rfl⟩
    | null => exact ⟨rfl, rfl, rfl⟩
    | bool b => exact ⟨rfl, rfl, rfl⟩
    | num q => exact ⟨rfl, rfl, rfl⟩
  · exact ⟨rfl, rfl, rfl⟩

theorem spec_C2_witness :
    Client.runOp net200 cfg0 (Client.error cfg0 (.num 5) .undefined)
      = .error (.plainError "Invalid message")
    ∧ Client.runOp net200 cfg0 (Client.info cfg0 (.str "") .undefined) = .ok none :=
  ⟨((spec_C2_message cfg0 (.num 5) .undefined net200).1
      (fun _ h => JSValue.noConfusion h)).1,
   (spec_C2_message cfg0 (.str "") .undefined net200).2.2.2⟩

/-- C8: when a request completes with HTTP status 200, a `no_response: true`
option makes the operation resolve with no value whatever the body holds (the
body is never parsed: the result is `ok none` for every `jsonResult`), and a
falsy `no_response` makes it parse the response body as JSON and return it. -/
theorem spec_C8_status200 (net : String → FetchOptions → Response) (c : Config)
    (r : Request) (resp : Response)
    (hresp : net (Client.url_base c ++ r.path) (Client.mkFetchOptions c r.body) = resp)
    (hstatus : resp.status = 200) :
    (r.no_response = true → Client.runOp net c (.ok (some r)) = .ok none)
  ∧ (r.no_response = false →
      ∀ j, resp.jsonResult = some j →
        Client.runOp net c (.ok (some r)) = .ok (some j)) := by
  constructor
  · intro hnr
    simp [Client.runOp, Client.sendRequest, hresp, Client.handleResponse, hstatus, hnr]
  · intro hnr j hj
    simp [Client.runOp, Client.sendRequest, hresp, Client.handleResponse, hstatus, hnr, hj]

theorem spec_C8_witness :
    Client.runOp net200json cfg0
        (.ok (some ⟨"notify", .notifyBody "m" "chan" "error", false⟩))
      = .ok (some (.str "ok"))
    ∧ Client.runOp net200json cfg0
        (.ok (some ⟨"notify", .notifyBody "m" "chan" "error", true⟩))
      = .ok none :=
  ⟨(spec_C8_status200 net200json cfg0 ⟨"notify", .notifyBody "m" "chan" "error", false⟩
      ⟨200, some "", some (.str "ok")⟩ rfl rfl).2 rfl (.str "ok") rfl,
   (spec_C8_status200 net200json cfg0 ⟨"notify", .notifyBody "m" "chan" "error", true⟩
      ⟨200, some "", some (.str "ok")⟩ rfl rfl).1 rfl⟩

theorem substPid_self (env : ProcessEnv) :
    Client.substPid env (.num env.pid) = .num env.pid := by
  unfold Client.substPid
  split <;> rfl

/-- C5: in `processWatch` and `processUnwatch`, a falsy `pid` argument is
replaced by the current process's own id, and if the pid after that
substitution is not a positive-integer number the call fails with the
`InvalidArgument` error `Invalid process id` for every transport, hence
before any network I/O. -/
theorem spec_C5_pid (env : ProcessEnv) (c : Config)
    (pid name severity channel : JSValue) :
    (pid.truthy = false →
        Client.processWatch env c pid name severity channel
          = Client.processWatch env c (.num env.pid) name severity channel
      ∧ Client.processUnwatch env c pid channel
          = Client.processUnwatch env c (.num env.pid) channel)
  ∧ (∀ p : ℚ, Client.substPid env pid = .num p → (p < 1 ∨ p.den ≠ 1) →
      ∀ net, Client.runOp net c (Client.processWatch env c pid name severity channel)
          = .error (.plainError "Invalid process id")
        ∧ Client.runOp net c (Client.processUnwatch env c pid channel)
          = .error (.plainError "Invalid process id"))
  ∧ ((∀ p : ℚ, Client.substPid env pid ≠ .num p) →
      ∀ net, Client.runOp net c (Client.processWatch env c pid name severity channel)
          = .error (.plainError "Invalid process id")
        ∧ Client.runOp net c (Client.processUnwatch env c pid channel)
          = .error (.plainError "Invalid process id")) := by
  refine ⟨?_, ?_, ?_⟩
  · intro hf
    have e1 : Client.substPid env pid = .num env.pid := by
      simp [Client.substPid, hf]
    constructor
    · simp only [Client.processWatch, e1, substPid_self]
    · simp only [Client.processUnwatch, e1, substPid_self]
  · intro p hsub hcond net
    constructor
    · simp [Client.runOp, Client.processWatch, hsub, if_pos hcond]
    · simp [Client.runOp, Client.processUnwatch, hsub, if_pos hcond]
  · intro hnum net
    cases hv : Client.substPid env pid with
    | num p => exact absurd hv (hnum p)
    | undefined =>
      exact ⟨by simp [Client.runOp, Client.processWatch, hv],
             by simp [Client.runOp, Client.processUnwatch, hv]⟩
    | null =>
      exact ⟨by simp [Client.runOp, Client.processWatch, hv],
             by simp [Client.runOp, Client.processUnwatch, hv]⟩
    | bool b =>
      exact ⟨by simp [Client.runOp, Client.processWatch, hv],
             by simp [Client.runOp, Client.processUnwatch, hv]⟩
    | str s =>
      exact ⟨by simp [Client.runOp, Client.processWatch, hv],
             by simp [Client.runOp, Client.processUnwatch, hv]⟩

theorem spec_C5_witness :
    Client.processWatch env0 cfg0 (.num 0) (.str "x") .undefined .undefined
      = Client.processWatch env0 cfg0 (.num env0.pid) (.str "x") .undefined .undefined
    ∧ Client.runOp net200 cfg0 (Client.processUnwatch env0 cfg0 (.num (-3)) .undefined)
      = .error (.plainError "Invalid process id") :=
  ⟨((spec_C5_pid env0 cfg0 (.num 0) (.str "x") .undefined .undefined).1 (by decide)).1,
   ((spec_C5_pid env0 cfg0 (.num (-3)) .undefined .undefined .undefined).2.1 (-3)
      (by rfl) (by decide) net200).2⟩

/-- C7: a falsy channel argument (omitted, `undefined`, or any other falsy
value) is replaced by the configured `defaultChannel`; a truthy non-string
channel fails with the `InvalidArgument` error `Invalid channel` for every
transport, hence before any network I/O; and `error(message)` with no channel
produces the `notify` request whose channel field is `defaultChannel` and
whose severity field is `"error"`. -/
theorem spec_C7_channel (c : Config) (ch : JSValue) (m : String)
    (hm : m.length ≠ 0) :
    (ch.truthy = false →
      Client.validateChannel c.defaultChannel ch = .ok c.defaultChannel)
  ∧ (ch.truthy = true → (∀ s, ch ≠ .str s) →
      ∀ net, Client.runOp net c (Client.error c (.str m) ch)
        = .error (.plainError "Invalid channel"))
  ∧ Client.error c (.str m) .undefined
      = .ok (some ⟨"notify", .notifyBody m c.defaultChannel "error", true⟩) := by
  refine ⟨?_, ?_, ?_⟩
  · intro hf
    cases ch with
    | str s =>
      have hs : s.length = 0 := by
        simpa [JSValue.truthy] using hf
      simp [Client.validateChannel, hs]
    | undefined => rfl
    | null => rfl
    | bool b => simp [Client.validateChannel, hf]
    | num q => simp [Client.validateChannel, hf]
  · intro ht hstr net
    have hch : Client.validateChannel c.defaultChannel ch
        = .error (.plainError "Invalid channel") := by
      cases ch with
      | str s => exact absurd rfl (hstr s)
      | undefined => cases ht
      | null => cases ht
      | bool b => simp [Client.validateChannel, ht]
      | num q => simp [Client.validateChannel, ht]
    simp [Client.runOp, Client.error, Client.notify, hm, hch]
  · simp [Client.error, Client.notify, hm, Client.validateChannel, JSValue.truthy]

theorem spec_C7_witness :
    Client.runOp net200 cfg0 (Client.error cfg0 (.str "msg") (.num 5))
      = .error (.plainError "Invalid channel")
    ∧ Client.error cfg0 (.str "msg") .undefined
      = .ok (some ⟨"notify", .notifyBody "msg" "chan" "error", true⟩) :=
  ⟨(spec_C7_channel cfg0 (.num 5) "msg" (by decide)).2.1 (by decide)
      (fun _ h => JSValue.noConfusion h) net200,
   (spec_C7_channel cfg0 .undefined "msg" (by decide)).2.2⟩

/-- C10: every falsy severity value given to `validateSeverity` (empty
string, `0`, `null`, ...) is treated as absent and yields the default
`"error"`, every falsy channel value given to `validateChannel` is replaced
by the default channel, and these helpers raise an error only on truthy
values (for the channel, only on truthy non-strings). -/
theorem spec_C10_falsy_defaults (dc : String) (v : JSValue) :
    (v.truthy = false → Client.validateSeverity v = .ok "error")
  ∧ (v.truthy = false → Client.validateChannel dc v = .ok dc)
  ∧ (∀ e, Client.validateSeverity v = .error e → v.truthy = true)
  ∧ (∀ e, Client.validateChannel dc v = .error e →
      v.truthy = true ∧ ∀ s, v ≠ .str s) := by
  refine ⟨?_, ?_, ?_, ?_⟩
  · intro hf
    simp [Client.validateSeverity, hf]
  · intro hf
    cases v with
    | str s =>
      have hs : s.length = 0 := by
        simpa [JSValue.truthy] using hf
      simp [Client.validateChannel, hs]
    | undefined => rfl
    | null => rfl
    | bool b => simp [Client.validateChannel, hf]
    | num q => simp [Client.validateChannel, hf]
  · intro e he
    by_contra hn
    rw [Bool.not_eq_true] at hn
    have h1 : Client.validateSeverity v = .ok "error" := by
      simp [Client.validateSeverity, hn]
    rw [h1] at he
    cases he
  · intro e he
    cases v with
    | str s =>
      simp only [Client.validateChannel] at he
      split at he <;> cases he
    | undefined => cases he
    | null => cases he
    | bool b =>
      simp only [Client.validateChannel] at he
      split at he
      case isTrue ht => exact ⟨ht, fun s h => JSValue.noConfusion h⟩
      case isFalse => cases he
    | num q =>
      simp only [Client.validateChannel] at he
      split at he
      case isTrue ht => exact ⟨ht, fun s h => JSValue.noConfusion h⟩
      case isFalse => cases he

theorem spec_C10_witness :
    Client.validateSeverity (.str "") = .ok "error"
    ∧ Client.validateChannel "chan" (.bool false) = .ok "chan" :=
  ⟨(spec_C10_falsy_defaults "chan" (.str "")).1 (by decide),
   (spec_C10_falsy_defaults "chan" (.bool false)).2.1 (by decide)⟩

/-- C6 counterexample: `processWatch` called with the provided severity `""` —
a value that is not one of `"error"`, `"warn"`, `"info"` — does not fail: it
succeeds with the severity defaulted to `"error"`, refuting the claim that any
provided value outside that set causes an `InvalidArgument` failure. -/
theorem spec_C6_counterexample :
    Client.processWatch env0 cfg0 (.num 7) (.str "x") (.str "") .undefined
      = .ok (some ⟨"process/watch", .watchBody 7 (.str "x") "chan" "error", true⟩)
    ∧ JSValue.str "" ≠ .str "error" ∧ JSValue.str "" ≠ .str "warn"
    ∧ JSValue.str "" ≠ .str "info" ∧ JSValue.str "" ≠ .undefined :=
  ⟨by rfl, by decide, by decide, by decide, by decide⟩

/-- C6 (amended): in `processWatch` (here with a pid that passes validation,
so that the severity check is reached) the severity defaults to `"error"`
when omitted or falsy; a truthy provided severity must be exactly one of
`"error"`, `"warn"`, `"info"`, each of which is accepted as-is, and any
truthy other value fails with the `InvalidArgument` error `Invalid severity`
for every transport, hence before any network call. -/
theorem spec_C6_amended (env : ProcessEnv) (c : Config)
    (pid name severity channel : JSValue) (p : ℚ)
    (hsub : Client.substPid env pid = .num p)
    (hp : ¬(p < 1 ∨ p.den ≠ 1)) :
    (severity.truthy = false →
        Client.validateSeverity severity = .ok "error"
      ∧ Client.processWatch env c pid name severity channel
          = Client.processWatch env c pid name .undefined channel)
  ∧ (severity.truthy = true →
      severity ≠ .str "error" → severity ≠ .str "warn" → severity ≠ .str "info" →
      ∀ net, Client.runOp net c (Client.processWatch env c pid name severity channel)
        = .error (.plainError "Invalid severity"))
  ∧ (∀ s, s = "error" ∨ s = "warn" ∨ s = "info" →
      Client.validateSeverity (.str s) = .ok s) := by
  refine ⟨?_, ?_, ?_⟩
  · intro hf
    have h1 : Client.validateSeverity severity = .ok "error" := by
      simp [Client.validateSeverity, hf]
    refine ⟨h1, ?_⟩
    simp only [Client.processWatch, h1]
    rfl
  · intro htr hne1 hne2 hne3 net
    have h2 : Client.validateSeverity severity
        = .error (.plainError "Invalid severity") := by
      cases severity with
      | undefined => simp [JSValue.truthy] at htr
      | null => simp [JSValue.truthy] at htr
      | bool b => simp [Client.validateSeverity, htr]
      | num q => simp [Client.validateSeverity, htr]
      | str s =>
        have hs1 : s ≠ "error" := fun h => hne1 (by rw [h])
        have hs2 : s ≠ "warn" := fun h => hne2 (by rw [h])
        have hs3 : s ≠ "info" := fun h => hne3 (by rw [h])
        simp [Client.validateSeverity, htr, hs1, hs2, hs3]
    simp [Client.runOp, Client.processWatch, hsub, hp, h2]
  · intro s hs
    rcases hs with h | h | h <;> subst h <;> rfl

theorem spec_C6_witness :
    Client.runOp net200 cfg0
        (Client.processWatch env0 cfg0 (.num 7) (.str "x") (.str "bogus") .undefined)
      = .error (.plainError "Invalid severity") :=
  (spec_C6_amended env0 cfg0 (.num 7) (.str "x") (.str "bogus") .undefined 7 rfl
      (by decide)).2.1 (by decide) (by decide) (by decide) (by decide) net200
